import Mathlib

/-!
Verification development for the SIT three-way handshake
(`src/validators/sit_handshake.py`).

Shallow embedding conventions:

* Machine time (`datetime.utcnow()`) is passed to every operation as an
  explicit `now : Int` argument (seconds; Python measures elapsed seconds as
  a real number, and every comparison in the source is against an integer
  `ttl_seconds`, so integer instants are a faithful granularity).
* An ISO-8601 timestamp string is modelled by `TStamp`: its raw string
  together with the result of `datetime.fromisoformat` on it (`none` when
  parsing raises).  `mkTS t` models `datetime.utcnow().isoformat()+"Z"`
  taken at instant `t`, which always round-trips to `t`.
* HMAC-SHA256 over the canonical JSON encoding (`_sign`) is modelled
  symbolically: `Mac` is a free datatype carrying the signing key and every
  field that enters the canonical payload (the `type` discriminator of
  `to_dict` becomes the constructor; the `signature` field is stripped by
  `_sign` and therefore does not appear).  Two macs are equal exactly when
  key and payload agree — the standard symbolic model of a collision-free
  keyed MAC.  A Python `signature` field holds either `None` or a string;
  `Mac.noSig` stands for `None` (and for any string that is not the HMAC of
  anything), so `hmac.compare_digest(expected, signature or "")` becomes
  plain equality with the recomputed mac, which `noSig` never satisfies.
* Python `dict`s (`constraints`, `semantic_boundary`, …) are association
  lists `Dict` with string keys; `dictMerge a b` is `{**a, **b}`.
* Nondeterministic fresh values (`uuid.uuid4()`) are explicit arguments
  (`sid` to `create_syn`, `token` to `process_syn`).
* Each mutating method becomes a pure function returning the Python
  `(value, error)` pair together with the updated `SIT_Handshake` state.
  `process_ack` reads `pending["syn_ack"]`, which raises `KeyError` on a
  pending entry written by `create_syn`; its result is therefore wrapped in
  one more `Option`, `none` marking that uncaught exception.
-/

namespace SIT

/-- Values stored in the Python dicts that travel inside handshake packets. -/
inductive Val where
  | vInt : Int → Val
  | vStr : String → Val
  | vBool : Bool → Val
deriving DecidableEq, Repr

/-- A Python `dict` as an association list (no duplicate keys arise in the code). -/
abbrev Dict := List (String × Val)

/-- An ISO timestamp string together with its `datetime.fromisoformat` parse
(`none` when the parse raises). -/
structure TStamp where
  raw : String
  parsed : Option Int
deriving DecidableEq, Repr

/-- `datetime.utcnow().isoformat() + "Z"` taken at instant `t`: a string that
parses back to `t`. -/
def mkTS (t : Int) : TStamp := ⟨toString t, some t⟩

/-- Symbolic HMAC-SHA256 value (`_sign`): the signing key plus the canonical
payload, one constructor per packet `type`; `noSig` models `None`. -/
inductive Mac where
  | noSig : Mac
  | synMac (key : String) (session_id requester_id intent_scope : String)
      (semantic_boundary constraints : Dict) (timestamp : TStamp)
      (ttl_seconds : Int) : Mac
  | synAckMac (key : String) (session_id : String) (syn_signature : Mac)
      (responder_id accepted_scope : String)
      (constraints_accepted constraints_modified : Dict)
      (session_token : String) (timestamp : TStamp) : Mac
  | ackMac (key : String) (session_id session_token : String)
      (syn_ack_signature : Mac) (confirmed : Bool) (semantic_mode : String)
      (timestamp : TStamp) : Mac
deriving DecidableEq, Repr

/-- `SIT_HandshakeState` enum. -/
inductive SIT_HandshakeState where
  | INIT | SYN_SENT | SYN_RECEIVED | ESTABLISHED | FAILED | TIMEOUT
deriving DecidableEq, Repr

/-- `SIT_HandshakeError` enum. -/
inductive SIT_HandshakeError where
  | OK | SCOPE_MISMATCH | CONSTRAINT_CONFLICT | SIGNATURE_INVALID
  | TIMEOUT | REQUESTER_DENIED | SEMANTIC_INCOMPATIBLE
deriving DecidableEq, Repr

/-- `SIT_SYN` packet. -/
structure SIT_SYN where
  session_id : String
  requester_id : String
  intent_scope : String
  semantic_boundary : Dict
  constraints : Dict
  timestamp : TStamp
  ttl_seconds : Int
  signature : Mac
deriving DecidableEq, Repr

/-- `SIT_SYN_ACK` packet. -/
structure SIT_SYN_ACK where
  session_id : String
  syn_signature : Mac
  responder_id : String
  accepted_scope : String
  constraints_accepted : Dict
  constraints_modified : Dict
  session_token : String
  timestamp : TStamp
  signature : Mac
deriving DecidableEq, Repr

/-- `SIT_ACK` packet. -/
structure SIT_ACK where
  session_id : String
  session_token : String
  syn_ack_signature : Mac
  confirmed : Bool
  semantic_mode : String
  timestamp : TStamp
  signature : Mac
deriving DecidableEq, Repr

/-- `SIT_Session`. -/
structure SIT_Session where
  session_id : String
  session_token : String
  requester_id : String
  responder_id : String
  agreed_scope : String
  agreed_constraints : Dict
  semantic_mode : String
  state : SIT_HandshakeState
  established_at : TStamp
  expires_at : TStamp
  signature_chain : List Mac
deriving DecidableEq, Repr

/-- One entry of `pending_sessions` (`syn_ack` is present only for entries
written by `process_syn`, mirroring the heterogeneous Python dict). -/
structure Pending where
  state : SIT_HandshakeState
  syn : SIT_SYN
  syn_ack : Option SIT_SYN_ACK
  created_at : Int
deriving DecidableEq, Repr

/-- First value bound to key `k` in a Python-dict-as-association-list. -/
def lookupA {α : Type} (m : List (String × α)) (k : String) : Option α :=
  (m.find? (fun p => p.1 == k)).map (fun p => p.2)

/-- Python `m[k] = v`: replace in place when the key exists, append otherwise. -/
def insertA {α : Type} (m : List (String × α)) (k : String) (v : α) :
    List (String × α) :=
  if (lookupA m k).isSome then
    m.map (fun p => if p.1 == k then (k, v) else p)
  else
    m ++ [(k, v)]

/-- Python `m.pop(k, None)` restricted to its effect on the dict. -/
def eraseA {α : Type} (m : List (String × α)) (k : String) :
    List (String × α) :=
  m.filter (fun p => !(p.1 == k))

/-- Python `{**a, **b}`: keys of `a` in order with `b`'s value winning on a
shared key, then the keys of `b` that are absent from `a`. -/
def dictMerge (a b : Dict) : Dict :=
  (a.map (fun p =>
    match lookupA b p.1 with
    | some v => (p.1, v)
    | none => p)) ++ b.filter (fun p => (lookupA a p.1).isNone)

/-- `SIT_Handshake` instance state (`__init__`). -/
structure SIT_Handshake where
  secret_key : String
  entity_id : String
  pending_sessions : List (String × Pending)
  established_sessions : List (String × SIT_Session)
deriving DecidableEq, Repr

/-- `_sign(syn.to_dict())`: canonical payload of a SYN minus its `signature`. -/
def sign_syn (key : String) (s : SIT_SYN) : Mac :=
  .synMac key s.session_id s.requester_id s.intent_scope s.semantic_boundary
    s.constraints s.timestamp s.ttl_seconds

/-- `_sign(syn_ack.to_dict())`. -/
def sign_syn_ack (key : String) (s : SIT_SYN_ACK) : Mac :=
  .synAckMac key s.session_id s.syn_signature s.responder_id s.accepted_scope
    s.constraints_accepted s.constraints_modified s.session_token s.timestamp

/-- `_sign(ack.to_dict())`. -/
def sign_ack (key : String) (a : SIT_ACK) : Mac :=
  .ackMac key a.session_id a.session_token a.syn_ack_signature a.confirmed
    a.semantic_mode a.timestamp

/-- `_verify_signature` on a SYN: recompute under the instance's own key and
compare (constant-time in the source; `noSig` plays `None`/`""`). -/
def verify_syn (key : String) (s : SIT_SYN) : Bool :=
  decide (s.signature = sign_syn key s)

/-- `_verify_signature` on a SYN-ACK. -/
def verify_syn_ack (key : String) (s : SIT_SYN_ACK) : Bool :=
  decide (s.signature = sign_syn_ack key s)

/-- `_verify_signature` on an ACK. -/
def verify_ack (key : String) (a : SIT_ACK) : Bool :=
  decide (a.signature = sign_ack key a)

/-- `_is_timeout`: `(utcnow() - start_time).total_seconds() > ttl_seconds`. -/
def is_timeout (start_time ttl_seconds now : Int) : Bool :=
  decide (now - start_time > ttl_seconds)

/-- `create_syn` (requester): mint the SYN (fresh `sid` passed explicitly,
`ttl_seconds` is the dataclass default 30), sign it, record the pending
entry. -/
def create_syn (h : SIT_Handshake) (now : Int) (sid : String)
    (intent_scope : String) (semantic_boundary : Dict) (constraints : Dict) :
    SIT_SYN × SIT_Handshake :=
  let syn0 : SIT_SYN :=
    { session_id := sid
      requester_id := h.entity_id
      intent_scope := intent_scope
      semantic_boundary := semantic_boundary
      constraints := constraints
      timestamp := mkTS now
      ttl_seconds := 30
      signature := .noSig }
  let syn : SIT_SYN := { syn0 with signature := sign_syn h.secret_key syn0 }
  (syn,
    { h with
      pending_sessions :=
        insertA h.pending_sessions sid
          { state := .SYN_SENT, syn := syn, syn_ack := none, created_at := now } })

/-- `process_syn` (responder): verify the SYN's mac, skip the expiry check
when the timestamp string does not parse (`except: pass`), honour `accept`,
then build and sign the SYN-ACK (fresh `token` passed explicitly) and record
the pending entry. -/
def process_syn (h : SIT_Handshake) (now : Int) (token : String)
    (syn : SIT_SYN) (accept : Bool) (modified_constraints : Dict) :
    (Option SIT_SYN_ACK × Option SIT_HandshakeError) × SIT_Handshake :=
  if ¬ verify_syn h.secret_key syn then
    ((none, some .SIGNATURE_INVALID), h)
  else if (match syn.timestamp.parsed with
           | some t => is_timeout t syn.ttl_seconds now
           | none => false) then
    ((none, some .TIMEOUT), h)
  else if ¬ accept then
    ((none, some .REQUESTER_DENIED), h)
  else
    let sa0 : SIT_SYN_ACK :=
      { session_id := syn.session_id
        syn_signature := syn.signature
        responder_id := h.entity_id
        accepted_scope := syn.intent_scope
        constraints_accepted := syn.constraints
        constraints_modified := modified_constraints
        session_token := token
        timestamp := mkTS now
        signature := .noSig }
    let sa : SIT_SYN_ACK := { sa0 with signature := sign_syn_ack h.secret_key sa0 }
    ((some sa, none),
      { h with
        pending_sessions :=
          insertA h.pending_sessions syn.session_id
            { state := .SYN_RECEIVED, syn := syn, syn_ack := some sa,
              created_at := now } })

/-- `process_syn_ack` (requester): unknown session → `SCOPE_MISMATCH`; bad
mac or mismatched `syn_signature` → `SIGNATURE_INVALID`; expired ttl →
`TIMEOUT` with the pending entry purged; otherwise build and sign the ACK,
materialize the local session (constraints merged, modified wins), store it
and clear the pending entry. -/
def process_syn_ack (h : SIT_Handshake) (now : Int) (syn_ack : SIT_SYN_ACK) :
    (Option SIT_ACK × Option SIT_HandshakeError) × SIT_Handshake :=
  match lookupA h.pending_sessions syn_ack.session_id with
  | none => ((none, some .SCOPE_MISMATCH), h)
  | some pending =>
    if ¬ verify_syn_ack h.secret_key syn_ack then
      ((none, some .SIGNATURE_INVALID), h)
    else if syn_ack.syn_signature ≠ pending.syn.signature then
      ((none, some .SIGNATURE_INVALID), h)
    else if is_timeout pending.created_at pending.syn.ttl_seconds now then
      ((none, some .TIMEOUT),
        { h with pending_sessions := eraseA h.pending_sessions syn_ack.session_id })
    else
      let ack0 : SIT_ACK :=
        { session_id := syn_ack.session_id
          session_token := syn_ack.session_token
          syn_ack_signature := syn_ack.signature
          confirmed := true
          semantic_mode := "shared-" ++ syn_ack.session_id.take 8
          timestamp := mkTS now
          signature := .noSig }
      let ack : SIT_ACK := { ack0 with signature := sign_ack h.secret_key ack0 }
      let session : SIT_Session :=
        { session_id := syn_ack.session_id
          session_token := syn_ack.session_token
          requester_id := h.entity_id
          responder_id := syn_ack.responder_id
          agreed_scope := syn_ack.accepted_scope
          agreed_constraints :=
            dictMerge syn_ack.constraints_accepted syn_ack.constraints_modified
          semantic_mode := ack.semantic_mode
          state := .ESTABLISHED
          established_at := mkTS now
          expires_at := mkTS (now + 3600)
          signature_chain := [pending.syn.signature, syn_ack.signature, ack.signature] }
      ((some ack, none),
        { h with
          established_sessions :=
            insertA h.established_sessions syn_ack.session_id session,
          pending_sessions := eraseA h.pending_sessions syn_ack.session_id })

/-- `process_ack` (responder): unknown session → `SCOPE_MISMATCH`; bad mac or
mismatched `syn_ack_signature` → `SIGNATURE_INVALID`; wrong `session_token`
→ `SCOPE_MISMATCH`; `confirmed=false` → `REQUESTER_DENIED`; otherwise
materialize the session, store it, clear the pending entry.  The outer
`Option` is `none` exactly where Python raises `KeyError` on
`pending["syn_ack"]`. -/
def process_ack (h : SIT_Handshake) (now : Int) (ack : SIT_ACK) :
    Option ((Option SIT_Session × Option SIT_HandshakeError) × SIT_Handshake) :=
  match lookupA h.pending_sessions ack.session_id with
  | none => some ((none, some .SCOPE_MISMATCH), h)
  | some pending =>
    if ¬ verify_ack h.secret_key ack then
      some ((none, some .SIGNATURE_INVALID), h)
    else
      match pending.syn_ack with
      | none => none
      | some sa =>
        if ack.syn_ack_signature ≠ sa.signature then
          some ((none, some .SIGNATURE_INVALID), h)
        else if ack.session_token ≠ sa.session_token then
          some ((none, some .SCOPE_MISMATCH), h)
        else if ¬ ack.confirmed then
          some ((none, some .REQUESTER_DENIED), h)
        else
          let session : SIT_Session :=
            { session_id := ack.session_id
              session_token := ack.session_token
              requester_id := pending.syn.requester_id
              responder_id := h.entity_id
              agreed_scope := sa.accepted_scope
              agreed_constraints :=
                dictMerge sa.constraints_accepted sa.constraints_modified
              semantic_mode := ack.semantic_mode
              state := .ESTABLISHED
              established_at := mkTS now
              expires_at := mkTS (now + 3600)
              signature_chain := [pending.syn.signature, sa.signature, ack.signature] }
          some ((some session, none),
            { h with
              established_sessions :=
                insertA h.established_sessions ack.session_id session,
              pending_sessions := eraseA h.pending_sessions ack.session_id })

/-- `get_session`. -/
def get_session (h : SIT_Handshake) (sid : String) : Option SIT_Session :=
  lookupA h.established_sessions sid

/-- `is_session_valid`: a pure read — `False` when the id is absent or the
stored `expires_at` string fails to parse, else `utcnow() < expires`. -/
def is_session_valid (h : SIT_Handshake) (now : Int) (sid : String) : Bool :=
  match lookupA h.established_sessions sid with
  | none => false
  | some session =>
    match session.expires_at.parsed with
    | none => false
    | some expires => decide (now < expires)

/-! ## Concrete fixtures

A fully evaluated handshake between two instances sharing the secret `"k"`,
plus a few hand-built states, used to instantiate the theorems below on
closed inputs. -/

def cwA : SIT_Handshake := ⟨"k", "alice", [], []⟩

def cwB : SIT_Handshake := ⟨"k", "bob", [], []⟩

def cwSyn : SIT_SYN :=
  (create_syn cwA 0 "S" "read-profile" [] [("max_x", Val.vInt 1000)]).1

def cwA1 : SIT_Handshake :=
  (create_syn cwA 0 "S" "read-profile" [] [("max_x", Val.vInt 1000)]).2

def cwSA : SIT_SYN_ACK :=
  (process_syn cwB 1 "T" cwSyn true [("max_x", Val.vInt 500)]).1.1.getD
    ⟨"", .noSig, "", "", [], [], "", ⟨"", none⟩, .noSig⟩

def cwB1 : SIT_Handshake :=
  (process_syn cwB 1 "T" cwSyn true [("max_x", Val.vInt 500)]).2

def cwAck : SIT_ACK :=
  (process_syn_ack cwA1 2 cwSA).1.1.getD
    ⟨"", "", .noSig, false, "", ⟨"", none⟩, .noSig⟩

def cwA2 : SIT_Handshake := (process_syn_ack cwA1 2 cwSA).2

def cwSess : SIT_Session :=
  ((process_ack cwB1 3 cwAck).getD ((none, none), cwB1)).1.1.getD
    ⟨"", "", "", "", "", [], "", .INIT, ⟨"", none⟩, ⟨"", none⟩, []⟩

def cwB2 : SIT_Handshake :=
  ((process_ack cwB1 3 cwAck).getD ((none, none), cwB1)).2

/-- Responder-side pending state for the token-mismatch experiment. -/
def c3syn0 : SIT_SYN := ⟨"S", "alice", "scope", [], [], ⟨"0", some 0⟩, 30, .noSig⟩

def c3syn : SIT_SYN := { c3syn0 with signature := sign_syn "k" c3syn0 }

def c3sa0 : SIT_SYN_ACK :=
  ⟨"S", c3syn.signature, "bob", "scope", [], [], "T", ⟨"1", some 1⟩, .noSig⟩

def c3sa : SIT_SYN_ACK := { c3sa0 with signature := sign_syn_ack "k" c3sa0 }

def c3pending : Pending := ⟨.SYN_RECEIVED, c3syn, some c3sa, 0⟩

def c3h : SIT_Handshake := ⟨"k", "bob", [("S", c3pending)], []⟩

/-- A confirmation whose mac verifies and whose `syn_ack_signature` matches
the stored response, but whose `session_token` is wrong. -/
def c3ack0 : SIT_ACK :=
  ⟨"S", "WRONG-TOKEN", c3sa.signature, true, "m", ⟨"2", some 2⟩, .noSig⟩

def c3ack : SIT_ACK := { c3ack0 with signature := sign_ack "k" c3ack0 }

/-- A response that is bound to no offer mac at all (`syn_signature = noSig`). -/
def c6sa : SIT_SYN_ACK :=
  ⟨"S", .noSig, "bob", "scope", [], [], "T", ⟨"1", some 1⟩, .noSig⟩

/-- Initiator-side pending offer with `ttl_seconds = 0`. -/
def c7syn0 : SIT_SYN := ⟨"S7", "alice", "scope", [], [], ⟨"0", some 0⟩, 0, .noSig⟩

def c7syn : SIT_SYN := { c7syn0 with signature := sign_syn "k" c7syn0 }

def c7pending : Pending := ⟨.SYN_SENT, c7syn, none, 0⟩

def c7sa0 : SIT_SYN_ACK :=
  ⟨"S7", c7syn.signature, "bob", "scope", [], [], "T7", ⟨"1", some 1⟩, .noSig⟩

def c7sa : SIT_SYN_ACK := { c7sa0 with signature := sign_syn_ack "k" c7sa0 }

def c7h : SIT_Handshake := ⟨"k", "alice", [("S7", c7pending)], []⟩

/-- An offer whose timestamp string `datetime.fromisoformat` cannot parse. -/
def c9syn0 : SIT_SYN :=
  ⟨"S9", "alice", "scope", [], [], ⟨"not-a-timestamp", none⟩, 0, .noSig⟩

def c9syn : SIT_SYN := { c9syn0 with signature := sign_syn "k" c9syn0 }

/-- An instance constructed with a different secret than `cwA`/`cwB`. -/
def cwC : SIT_Handshake := ⟨"other-key", "carol", [], []⟩

/-- State after the ttl-expired `process_syn_ack` call on `c7h`. -/
def c5h2 : SIT_Handshake := (process_syn_ack c7h 1 c7sa).2

/-! ## Association-list lemmas -/

theorem lookupA_insertA_self {α : Type} (m : List (String × α)) (k : String)
    (v : α) : lookupA (insertA m k v) k = some v := by
  unfold insertA
  split
  next hs =>
    unfold lookupA at hs ⊢
    rw [List.find?_map]
    have hpred : ((fun q : String × α => q.1 == k) ∘
        (fun p => if p.1 == k then (k, v) else p)) =
        (fun p : String × α => p.1 == k) := by
      funext p
      by_cases h : p.1 == k <;> simp [Function.comp, h]
    rw [hpred]
    cases hfind : m.find? (fun p : String × α => p.1 == k) with
    | none => rw [hfind] at hs; simp at hs
    | some q =>
      have hq0 := List.find?_some hfind
      have hq : q.1 = k := eq_of_beq (by simpa using hq0)
      simp [hq]
  next =>
    unfold lookupA at *
    rw [List.find?_append]
    have h0 : m.find? (fun p : String × α => p.1 == k) = none := by
      cases hfind : m.find? (fun p : String × α => p.1 == k) with
      | none => rfl
      | some q => simp_all
    rw [h0]
    simp

theorem lookupA_eraseA_self {α : Type} (m : List (String × α)) (k : String) :
    lookupA (eraseA m k) k = none := by
  induction m with
  | nil => rfl
  | cons p m ih =>
    unfold eraseA lookupA at ih ⊢
    cases hp : p.1 == k
    · rw [List.filter_cons]
      simp only [hp, Bool.not_false, if_true]
      rw [List.find?_cons_of_neg _ (by simp [hp])]
      exact ih
    · rw [List.filter_cons]
      simp only [hp, Bool.not_true]
      rw [if_neg (by simp)]
      exact ih

theorem lookupA_append {α : Type} (x y : List (String × α)) (k : String) :
    lookupA (x ++ y) k = (lookupA x k).or (lookupA y k) := by
  unfold lookupA
  rw [List.find?_append]
  cases x.find? (fun p : String × α => p.1 == k) <;> rfl

theorem lookupA_map_keyfix {α : Type} (x : List (String × α)) (k : String)
    (f : String × α → String × α) (hf : ∀ p, (f p).1 = p.1) :
    lookupA (x.map f) k = (lookupA x k).map (fun w => (f (k, w)).2) := by
  induction x with
  | nil => rfl
  | cons p x ih =>
    obtain ⟨p1, p2⟩ := p
    unfold lookupA at ih ⊢
    rw [List.map_cons]
    cases hp : p1 == k
    · rw [List.find?_cons_of_neg _ (by simp [hf, hp]),
        List.find?_cons_of_neg _ (by simp [hp])]
      exact ih
    · have hk : p1 = k := eq_of_beq hp
      rw [List.find?_cons_of_pos _ (by simp [hf, hp]),
        List.find?_cons_of_pos _ (by simp [hp])]
      simp [hk]

theorem lookupA_filter_keep {α : Type} (x : List (String × α)) (k : String)
    (q : String × α → Bool) (hq : ∀ w, q (k, w) = true) :
    lookupA (x.filter q) k = lookupA x k := by
  induction x with
  | nil => rfl
  | cons p x ih =>
    obtain ⟨p1, p2⟩ := p
    unfold lookupA at ih ⊢
    rw [List.filter_cons]
    cases hp : p1 == k
    · split
      · rw [List.find?_cons_of_neg _ (by simp [hp]),
          List.find?_cons_of_neg _ (by simp [hp])]
        exact ih
      · rw [List.find?_cons_of_neg _ (by simp [hp])]
        exact ih
    · have hk : p1 = k := eq_of_beq hp
      subst hk
      rw [if_pos (hq p2)]
      rw [List.find?_cons_of_pos _ (by simp), List.find?_cons_of_pos _ (by simp)]

theorem lookupA_filter_drop {α : Type} (x : List (String × α)) (k : String)
    (q : String × α → Bool) (hq : ∀ w, q (k, w) = false) :
    lookupA (x.filter q) k = none := by
  induction x with
  | nil => rfl
  | cons p x ih =>
    obtain ⟨p1, p2⟩ := p
    unfold lookupA at ih ⊢
    rw [List.filter_cons]
    cases hp : p1 == k
    · split
      · rw [List.find?_cons_of_neg _ (by simp [hp])]
        exact ih
      · exact ih
    · have hk : p1 = k := eq_of_beq hp
      subst hk
      rw [if_neg (by simp [hq p2])]
      exact ih

/-- The key fact behind `{**a, **b}`: a lookup in the merged dict returns
`b`'s binding when present, else `a`'s (modified wins key-by-key). -/
theorem lookupA_dictMerge (a b : Dict) (k : String) :
    lookupA (dictMerge a b) k = (lookupA b k).or (lookupA a k) := by
  unfold dictMerge
  rw [lookupA_append, lookupA_map_keyfix _ _ _ (by
    intro p
    cases hlb : lookupA b p.1 <;> simp [hlb])]
  cases hla : lookupA a k with
  | some w =>
    rw [lookupA_filter_drop _ _ _ (by intro w'; simp [hla])]
    cases hlb : lookupA b k <;> simp [hlb]
  | none =>
    rw [lookupA_filter_keep _ _ _ (by intro w'; simp [hla])]
    cases hlb : lookupA b k <;> simp [hlb]

/-! ## Inversion lemmas for the success paths -/

/-- What a successful `process_syn` guarantees about the returned SYN-ACK and
the recorded pending entry. -/
theorem process_syn_success {h : SIT_Handshake} {now : Int} {token : String}
    {syn : SIT_SYN} {accept : Bool} {mods : Dict} {sa : SIT_SYN_ACK}
    {h' : SIT_Handshake}
    (hrun : process_syn h now token syn accept mods = ((some sa, none), h')) :
    sa.session_id = syn.session_id ∧ sa.syn_signature = syn.signature ∧
    sa.accepted_scope = syn.intent_scope ∧
    sa.constraints_accepted = syn.constraints ∧
    sa.constraints_modified = mods ∧ sa.session_token = token ∧
    lookupA h'.pending_sessions syn.session_id =
      some ⟨.SYN_RECEIVED, syn, some sa, now⟩ ∧
    h'.established_sessions = h.established_sessions := by
  unfold process_syn at hrun
  split at hrun
  · simp at hrun
  · split at hrun
    · simp at hrun
    · split at hrun
      · simp at hrun
      · simp only [Prod.mk.injEq, Option.some.injEq] at hrun
        obtain ⟨⟨hsa, -⟩, hh⟩ := hrun
        subst hsa
        subst hh
        exact ⟨rfl, rfl, rfl, rfl, rfl, rfl, lookupA_insertA_self _ _ _, rfl⟩

/-- What a successful `process_syn_ack` guarantees: the ACK echoes the
SYN-ACK's token, and the initiator's stored session is built from the
SYN-ACK's negotiated fields (constraints merged, modified wins). -/
theorem process_syn_ack_success {h : SIT_Handshake} {now : Int}
    {sa : SIT_SYN_ACK} {ack : SIT_ACK} {h' : SIT_Handshake}
    (hrun : process_syn_ack h now sa = ((some ack, none), h')) :
    ack.session_id = sa.session_id ∧ ack.session_token = sa.session_token ∧
    ack.syn_ack_signature = sa.signature ∧ ack.confirmed = true ∧
    ∃ s, lookupA h'.established_sessions sa.session_id = some s ∧
      s.session_id = sa.session_id ∧ s.session_token = sa.session_token ∧
      s.agreed_scope = sa.accepted_scope ∧
      s.agreed_constraints =
        dictMerge sa.constraints_accepted sa.constraints_modified := by
  unfold process_syn_ack at hrun
  split at hrun
  · simp at hrun
  · split at hrun
    · simp at hrun
    · split at hrun
      · simp at hrun
      · split at hrun
        · simp at hrun
        · simp only [Prod.mk.injEq, Option.some.injEq] at hrun
          obtain ⟨⟨hack, -⟩, hh⟩ := hrun
          subst hack
          subst hh
          exact ⟨rfl, rfl, rfl, rfl, _, lookupA_insertA_self _ _ _,
            rfl, rfl, rfl, rfl⟩

/-- What a successful `process_ack` guarantees: the pending entry existed,
its token and response mac were matched, the responder's session is built
from the stored SYN-ACK (constraints merged, modified wins), and the pending
entry is cleared. -/
theorem process_ack_success {h : SIT_Handshake} {now : Int} {ack : SIT_ACK}
    {s : SIT_Session} {h' : SIT_Handshake}
    (hrun : process_ack h now ack = some ((some s, none), h')) :
    ∃ p sa, lookupA h.pending_sessions ack.session_id = some p ∧
      p.syn_ack = some sa ∧
      ack.syn_ack_signature = sa.signature ∧
      ack.session_token = sa.session_token ∧
      s.session_id = ack.session_id ∧ s.session_token = ack.session_token ∧
      s.agreed_scope = sa.accepted_scope ∧
      s.agreed_constraints =
        dictMerge sa.constraints_accepted sa.constraints_modified ∧
      lookupA h'.established_sessions ack.session_id = some s ∧
      h'.pending_sessions = eraseA h.pending_sessions ack.session_id := by
  unfold process_ack at hrun
  split at hrun
  next hnone => simp at hrun
  next p hp =>
    split at hrun
    · simp at hrun
    · split at hrun
      · simp at hrun
      next sa hsa =>
        split at hrun
        · simp at hrun
        · split at hrun
          · simp at hrun
          · split at hrun
            · simp at hrun
            next hconf =>
              simp only [Option.some.injEq, Prod.mk.injEq] at hrun
              obtain ⟨⟨hs, -⟩, hh⟩ := hrun
              subst hs
              subst hh
              refine ⟨p, sa, hp, hsa, ?_, ?_, rfl, rfl, rfl, rfl,
                lookupA_insertA_self _ _ _, rfl⟩
              · by_contra hne
                exact absurd hne (by simp_all)
              · by_contra hne
                exact absurd hne (by simp_all)

/-! ## Claim theorems -/

/-- Claim C5: in `process_syn_ack`, a `TIMEOUT` result purges the pending
entry for the response's session_id (and touches nothing else), while a
`SCOPE_MISMATCH` or `SIGNATURE_INVALID` result leaves the whole state
exactly unchanged. -/
theorem C5_process_syn_ack_failure_state (h : SIT_Handshake) (now : Int)
    (sa : SIT_SYN_ACK) (r : Option SIT_ACK) (err : Option SIT_HandshakeError)
    (h' : SIT_Handshake)
    (hrun : process_syn_ack h now sa = ((r, err), h')) :
    (err = some .TIMEOUT →
      h'.pending_sessions = eraseA h.pending_sessions sa.session_id ∧
      lookupA h'.pending_sessions sa.session_id = none ∧
      h'.established_sessions = h.established_sessions) ∧
    ((err = some .SCOPE_MISMATCH ∨ err = some .SIGNATURE_INVALID) →
      h' = h) := by
  unfold process_syn_ack at hrun
  split at hrun
  · simp only [Prod.mk.injEq] at hrun
    obtain ⟨⟨-, herr⟩, hh⟩ := hrun
    subst herr
    subst hh
    exact ⟨fun ht => absurd ht (by simp), fun _ => rfl⟩
  · split at hrun
    · simp only [Prod.mk.injEq] at hrun
      obtain ⟨⟨-, herr⟩, hh⟩ := hrun
      subst herr
      subst hh
      exact ⟨fun ht => absurd ht (by simp), fun _ => rfl⟩
    · split at hrun
      · simp only [Prod.mk.injEq] at hrun
        obtain ⟨⟨-, herr⟩, hh⟩ := hrun
        subst herr
        subst hh
        exact ⟨fun ht => absurd ht (by simp), fun _ => rfl⟩
      · split at hrun
        · simp only [Prod.mk.injEq] at hrun
          obtain ⟨⟨-, herr⟩, hh⟩ := hrun
          subst herr
          subst hh
          refine ⟨fun _ => ⟨rfl, lookupA_eraseA_self _ _, rfl⟩, ?_⟩
          intro hor
          rcases hor with hbad | hbad <;> simp at hbad
        · simp only [Prod.mk.injEq] at hrun
          obtain ⟨⟨-, herr⟩, hh⟩ := hrun
          subst herr
          subst hh
          refine ⟨fun ht => absurd ht (by simp), ?_⟩
          intro hor
          rcases hor with hbad | hbad <;> simp at hbad

/-- Witness for C5 at the concrete ttl-expired run on `c7h`. -/
theorem C5_witness :
    (some SIT_HandshakeError.TIMEOUT = some SIT_HandshakeError.TIMEOUT →
      c5h2.pending_sessions = eraseA c7h.pending_sessions c7sa.session_id ∧
      lookupA c5h2.pending_sessions c7sa.session_id = none ∧
      c5h2.established_sessions = c7h.established_sessions) ∧
    ((some SIT_HandshakeError.TIMEOUT = some SIT_HandshakeError.SCOPE_MISMATCH ∨
      some SIT_HandshakeError.TIMEOUT = some SIT_HandshakeError.SIGNATURE_INVALID) →
      c5h2 = c7h) :=
  C5_process_syn_ack_failure_state c7h 1 c7sa none (some .TIMEOUT) c5h2
    (by decide)

/-- Claim C6: `process_syn_ack` rejects an unknown session_id with
`SCOPE_MISMATCH`, and rejects a known session_id whose `syn_signature`
differs from the stored offer's mac with `SIGNATURE_INVALID`, whether or not
the response's own mac verifies; the state is untouched in both cases. -/
theorem C6_unknown_session_or_offer_mac_mismatch (h : SIT_Handshake)
    (now : Int) (sa : SIT_SYN_ACK) :
    (lookupA h.pending_sessions sa.session_id = none →
      process_syn_ack h now sa = ((none, some .SCOPE_MISMATCH), h)) ∧
    (∀ p, lookupA h.pending_sessions sa.session_id = some p →
      sa.syn_signature ≠ p.syn.signature →
      process_syn_ack h now sa = ((none, some .SIGNATURE_INVALID), h)) := by
  constructor
  · intro h0
    unfold process_syn_ack
    simp only [h0]
  · intro p hp hne
    unfold process_syn_ack
    simp only [hp]
    by_cases hv : verify_syn_ack h.secret_key sa = true
    · rw [if_neg (not_not_intro hv), if_pos hne]
    · rw [if_pos hv]

/-- Witness for C6: an unknown session_id on the empty instance, and a
response bound to no offer mac on `c3h`. -/
theorem C6_witness :
    process_syn_ack cwB 0 c3sa = ((none, some .SCOPE_MISMATCH), cwB) ∧
    process_syn_ack c3h 0 c6sa = ((none, some .SIGNATURE_INVALID), c3h) :=
  ⟨(C6_unknown_session_or_offer_mac_mismatch cwB 0 c3sa).1 (by decide),
   (C6_unknown_session_or_offer_mac_mismatch c3h 0 c6sa).2 c3pending
     (by decide) (by decide)⟩

/-- Claim C7: a pending offer with `ttl_seconds = 0` makes any
otherwise-valid response processed strictly after the pending entry's
creation instant fail with `TIMEOUT` (and the pending entry is purged). -/
theorem C7_zero_ttl_response_times_out (h : SIT_Handshake) (now : Int)
    (sa : SIT_SYN_ACK) (p : Pending)
    (hp : lookupA h.pending_sessions sa.session_id = some p)
    (httl : p.syn.ttl_seconds = 0)
    (hafter : p.created_at < now)
    (hv : verify_syn_ack h.secret_key sa = true)
    (hsig : sa.syn_signature = p.syn.signature) :
    process_syn_ack h now sa = ((none, some .TIMEOUT),
      { h with pending_sessions := eraseA h.pending_sessions sa.session_id }) := by
  unfold process_syn_ack
  simp only [hp]
  rw [if_neg (not_not_intro hv), if_neg (not_not_intro hsig),
    if_pos (by simp only [is_timeout, httl, decide_eq_true_eq]; omega)]

/-- Witness for C7 on the concrete zero-ttl pending offer `c7h`. -/
theorem C7_witness :
    process_syn_ack c7h 1 c7sa = ((none, some .TIMEOUT),
      { c7h with
        pending_sessions := eraseA c7h.pending_sessions c7sa.session_id }) :=
  C7_zero_ttl_response_times_out c7h 1 c7sa c7pending (by decide) (by decide)
    (by decide) (by decide) (by decide)

/-- Claim C8: `is_session_valid` is true exactly when the registry holds a
session under that id whose `expires_at` instant is strictly after `now`
(the stored `expires_at` string is read through its parse, which succeeds on
every session the code itself creates); the function is a pure read —
in this embedding it returns only a `Bool` and no state. -/
theorem C8_is_session_valid_iff (h : SIT_Handshake) (now : Int)
    (sid : String) :
    is_session_valid h now sid = true ↔
      ∃ s, lookupA h.established_sessions sid = some s ∧
        ∃ e, s.expires_at.parsed = some e ∧ now < e := by
  unfold is_session_valid
  cases hs : lookupA h.established_sessions sid with
  | none => simp
  | some s =>
    cases he : s.expires_at.parsed with
    | none => simp [he]
    | some e => simp [he]

/-- Claim C9: an offer whose timestamp string does not parse skips the
expiry check entirely: with a valid mac and `accept = true` it yields a
SYN-ACK, never `TIMEOUT`, for every `now` and every `ttl_seconds`. -/
theorem C9_unparseable_timestamp_skips_expiry (h : SIT_Handshake) (now : Int)
    (token : String) (syn : SIT_SYN) (mods : Dict)
    (hts : syn.timestamp.parsed = none)
    (hv : verify_syn h.secret_key syn = true) :
    ∃ sa h', process_syn h now token syn true mods = ((some sa, none), h') := by
  unfold process_syn
  rw [if_neg (not_not_intro hv)]
  simp only [hts]
  rw [if_neg (by simp), if_neg (by simp)]
  exact ⟨_, _, rfl⟩

/-- Witness for C9: a garbage timestamp with `ttl_seconds = 0`, processed
one million seconds later, still succeeds. -/
theorem C9_witness :
    ∃ sa h',
      process_syn cwB 1000000 "T9" c9syn true [] = ((some sa, none), h') :=
  C9_unparseable_timestamp_skips_expiry cwB 1000000 "T9" c9syn []
    (by decide) (by decide)

/-- `process_syn` reports `SIGNATURE_INVALID` precisely when the offer's
signature differs from the mac recomputed under the receiving instance's own
`secret_key`. -/
theorem process_syn_signature_error_iff (h : SIT_Handshake) (now : Int)
    (token : String) (syn : SIT_SYN) (accept : Bool) (mods : Dict) :
    (process_syn h now token syn accept mods).1.2 =
        some SIT_HandshakeError.SIGNATURE_INVALID ↔
      ¬ syn.signature = sign_syn h.secret_key syn := by
  unfold process_syn
  by_cases hv : syn.signature = sign_syn h.secret_key syn
  · rw [if_neg (by simp [verify_syn, hv])]
    constructor
    · intro hbad
      split at hbad
      · simp at hbad
      · split at hbad
        · simp at hbad
        · simp at hbad
    · intro hc
      exact absurd hv hc
  · rw [if_pos (by simp [verify_syn, hv])]
    simp [hv]

/-- Claim C10: signature verification recomputes the mac under the
receiver's own `secret_key` — `process_syn` rejects with
`SIGNATURE_INVALID` exactly when the offer's signature is not the HMAC of
its canonical encoding under the responder's key; consequently an offer
minted by an instance holding a different secret is always rejected, so a
handshake can only proceed between instances constructed with equal
`secret_key`. -/
theorem C10_verification_uses_own_key :
    (∀ (h : SIT_Handshake) (now : Int) (token : String) (syn : SIT_SYN)
      (accept : Bool) (mods : Dict),
      (process_syn h now token syn accept mods).1.2 =
          some SIT_HandshakeError.SIGNATURE_INVALID ↔
        ¬ syn.signature = sign_syn h.secret_key syn) ∧
    (∀ (hA hB : SIT_Handshake) (t1 t2 : Int) (sid token scope : String)
      (bnd cons mods : Dict) (accept : Bool),
      hA.secret_key ≠ hB.secret_key →
      (process_syn hB t2 token (create_syn hA t1 sid scope bnd cons).1 accept
        mods).1.2 = some SIT_HandshakeError.SIGNATURE_INVALID) := by
  constructor
  · exact process_syn_signature_error_iff
  · intro hA hB t1 t2 sid token scope bnd cons mods accept hkey
    rw [process_syn_signature_error_iff]
    intro heq
    simp only [create_syn, sign_syn, Mac.synMac.injEq] at heq
    exact hkey heq.1

/-- Witness for C10: the instance keyed `"other-key"` signs an offer that
the instance keyed `"k"` rejects. -/
theorem C10_witness :
    (process_syn cwB 0 "T0" (create_syn cwC 0 "S0" "scope" [] []).1 true
      []).1.2 = some SIT_HandshakeError.SIGNATURE_INVALID :=
  C10_verification_uses_own_key.2 cwC cwB 0 0 "S0" "T0" "scope" [] [] []
    true (by decide)

/-- Claim C1: in every complete handshake between two instances sharing a
secret key — offer accepted by `process_syn`, response accepted by
`process_syn_ack`, confirmation accepted by `process_ack` — the initiator's
stored session and the responder's session agree on `session_id`,
`session_token`, `agreed_scope` and `agreed_constraints`. -/
theorem C1_handshake_sessions_agree
    (hA hB : SIT_Handshake) (t1 t2 t3 t4 : Int)
    (sid token scope : String) (bnd cons mods : Dict)
    (syn : SIT_SYN) (hA1 : SIT_Handshake) (sa : SIT_SYN_ACK)
    (hB1 : SIT_Handshake) (ack : SIT_ACK) (hA2 : SIT_Handshake)
    (sess : SIT_Session) (hB2 : SIT_Handshake)
    (_hkey : hA.secret_key = hB.secret_key)
    (h1 : create_syn hA t1 sid scope bnd cons = (syn, hA1))
    (h2 : process_syn hB t2 token syn true mods = ((some sa, none), hB1))
    (h3 : process_syn_ack hA1 t3 sa = ((some ack, none), hA2))
    (h4 : process_ack hB1 t4 ack = some ((some sess, none), hB2)) :
    ∃ sA, lookupA hA2.established_sessions sid = some sA ∧
      sA.session_id = sess.session_id ∧
      sA.session_token = sess.session_token ∧
      sA.agreed_scope = sess.agreed_scope ∧
      sA.agreed_constraints = sess.agreed_constraints := by
  have h1' : (create_syn hA t1 sid scope bnd cons).1 = syn :=
    congrArg Prod.fst h1
  have hsid : syn.session_id = sid := by
    rw [← h1']
    rfl
  obtain ⟨hsaid, -, -, -, -, -, hpend, -⟩ := process_syn_success h2
  obtain ⟨hackid, hacktok, -, -, sA, hlookA, hAid, hAtok, hAscope, hAcons⟩ :=
    process_syn_ack_success h3
  obtain ⟨p, sa', hp, hpsa, -, -, hBid, hBtok, hBscope, hBcons, -, -⟩ :=
    process_ack_success h4
  have hkeys : ack.session_id = syn.session_id := by rw [hackid, hsaid]
  rw [hkeys, hpend] at hp
  have hpv : p = ⟨.SYN_RECEIVED, syn, some sa, t2⟩ := by
    injection hp with h
    exact h.symm
  subst hpv
  simp only [Option.some.injEq] at hpsa
  subst hpsa
  refine ⟨sA, ?_, ?_, ?_, ?_, ?_⟩
  · rw [← hsid, ← hsaid]
    exact hlookA
  · rw [hAid, hBid, hackid]
  · rw [hAtok, hBtok, hacktok]
  · rw [hAscope, hBscope]
  · rw [hAcons, hBcons]

/-- Witness for C1: the fully evaluated `"k"`-keyed handshake
`cwA`/`cwB`. -/
theorem C1_witness :
    ∃ sA, lookupA cwA2.established_sessions "S" = some sA ∧
      sA.session_id = cwSess.session_id ∧
      sA.session_token = cwSess.session_token ∧
      sA.agreed_scope = cwSess.agreed_scope ∧
      sA.agreed_constraints = cwSess.agreed_constraints :=
  C1_handshake_sessions_agree cwA cwB 0 1 2 3 "S" "T" "read-profile" []
    [("max_x", Val.vInt 1000)] [("max_x", Val.vInt 500)]
    cwSyn cwA1 cwSA cwB1 cwAck cwA2 cwSess cwB2
    rfl (by decide) (by decide) (by decide) (by decide)

/-- Claim C2: every materialized session's `agreed_constraints` is the
response's `constraints_accepted` overlaid by `constraints_modified`, with
the modified value winning on every shared key; in particular the overlay of
`max_x = 1000` by `max_x = 500` yields 500. -/
theorem C2_agreed_constraints_overlay :
    (∀ (h : SIT_Handshake) (now : Int) (sa : SIT_SYN_ACK) (ack : SIT_ACK)
      (h' : SIT_Handshake),
      process_syn_ack h now sa = ((some ack, none), h') →
      ∃ s, lookupA h'.established_sessions sa.session_id = some s ∧
        s.agreed_constraints =
          dictMerge sa.constraints_accepted sa.constraints_modified ∧
        ∀ k v, lookupA sa.constraints_modified k = some v →
          lookupA s.agreed_constraints k = some v) ∧
    (∀ (h : SIT_Handshake) (now : Int) (ack : SIT_ACK) (s : SIT_Session)
      (h' : SIT_Handshake) (p : Pending) (sa : SIT_SYN_ACK),
      lookupA h.pending_sessions ack.session_id = some p →
      p.syn_ack = some sa →
      process_ack h now ack = some ((some s, none), h') →
      s.agreed_constraints =
        dictMerge sa.constraints_accepted sa.constraints_modified ∧
      ∀ k v, lookupA sa.constraints_modified k = some v →
        lookupA s.agreed_constraints k = some v) ∧
    lookupA (dictMerge [("max_x", Val.vInt 1000)] [("max_x", Val.vInt 500)])
      "max_x" = some (Val.vInt 500) := by
  refine ⟨?_, ?_, by decide⟩
  · intro h now sa ack h' hrun
    obtain ⟨-, -, -, -, s, hlook, -, -, -, hcons⟩ :=
      process_syn_ack_success hrun
    refine ⟨s, hlook, hcons, ?_⟩
    intro k v hv
    rw [hcons, lookupA_dictMerge, hv]
    rfl
  · intro h now ack s h' p sa hp hpsa hrun
    obtain ⟨p', sa', hp', hpsa', -, -, -, -, -, hcons, -, -⟩ :=
      process_ack_success hrun
    rw [hp] at hp'
    have hpv : p' = p := by
      injection hp' with h0
      exact h0.symm
    subst hpv
    rw [hpsa] at hpsa'
    simp only [Option.some.injEq] at hpsa'
    subst hpsa'
    refine ⟨hcons, ?_⟩
    intro k v hv
    rw [hcons, lookupA_dictMerge, hv]
    rfl

/-- Witness for C2 at the concrete successful `process_syn_ack` of the
`cwA`/`cwB` handshake. -/
theorem C2_witness :
    ∃ s, lookupA cwA2.established_sessions cwSA.session_id = some s ∧
      s.agreed_constraints =
        dictMerge cwSA.constraints_accepted cwSA.constraints_modified ∧
      ∀ k v, lookupA cwSA.constraints_modified k = some v →
        lookupA s.agreed_constraints k = some v :=
  C2_agreed_constraints_overlay.1 cwA1 2 cwSA cwAck cwA2 (by decide)

/-- Claim C3 fails on the code: a confirmation with a known session_id, a
verifying mac and a matching `syn_ack_signature` but a wrong
`session_token` is rejected with `SCOPE_MISMATCH`, not with
`SIGNATURE_INVALID` as claimed. -/
theorem C3_counterexample :
    lookupA c3h.pending_sessions c3ack.session_id = some c3pending ∧
    verify_ack c3h.secret_key c3ack = true ∧
    c3pending.syn_ack = some c3sa ∧
    c3ack.syn_ack_signature = c3sa.signature ∧
    c3ack.session_token ≠ c3sa.session_token ∧
    (process_ack c3h 2 c3ack).map (fun res => res.1.2) =
      some (some SIT_HandshakeError.SCOPE_MISMATCH) ∧
    (process_ack c3h 2 c3ack).map (fun res => res.1.2) ≠
      some (some SIT_HandshakeError.SIGNATURE_INVALID) := by
  decide

/-- Claim C3 amended: such a token-mismatching confirmation is rejected
with `SCOPE_MISMATCH` (state untouched). -/
theorem C3_token_mismatch_is_scope_mismatch (h : SIT_Handshake) (now : Int)
    (ack : SIT_ACK) (p : Pending) (sa : SIT_SYN_ACK)
    (hp : lookupA h.pending_sessions ack.session_id = some p)
    (hv : verify_ack h.secret_key ack = true)
    (hpsa : p.syn_ack = some sa)
    (hrm : ack.syn_ack_signature = sa.signature)
    (htok : ack.session_token ≠ sa.session_token) :
    process_ack h now ack = some ((none, some .SCOPE_MISMATCH), h) := by
  unfold process_ack
  simp only [hp, hpsa]
  rw [if_neg (not_not_intro hv), if_neg (not_not_intro hrm), if_pos htok]

/-- Witness for the amended C3 on the concrete wrong-token confirmation. -/
theorem C3_witness :
    process_ack c3h 2 c3ack = some ((none, some .SCOPE_MISMATCH), c3h) :=
  C3_token_mismatch_is_scope_mismatch c3h 2 c3ack c3pending c3sa
    (by decide) (by decide) (by decide) (by decide) (by decide)

/-- Claim C4: once a confirmation has been consumed successfully, feeding
the identical confirmation to the same instance again yields
`SCOPE_MISMATCH` and leaves the state untouched — no second session is
created. -/
theorem C4_reprocessed_confirmation_rejected (h h' : SIT_Handshake)
    (now now' : Int) (ack : SIT_ACK) (s : SIT_Session)
    (hrun : process_ack h now ack = some ((some s, none), h')) :
    process_ack h' now' ack = some ((none, some .SCOPE_MISMATCH), h') := by
  obtain ⟨p, sa, -, -, -, -, -, -, -, -, -, hpend⟩ := process_ack_success hrun
  unfold process_ack
  rw [hpend, lookupA_eraseA_self]

/-- Witness for C4: replaying `cwAck` on the instance that already consumed
it. -/
theorem C4_witness :
    process_ack cwB2 4 cwAck = some ((none, some .SCOPE_MISMATCH), cwB2) :=
  C4_reprocessed_confirmation_rejected cwB1 cwB2 3 4 cwAck cwSess (by decide)

end SIT
